import Mathlib

/-!
Shallow embedding of `src/core/utils.py` from the `oidc-authenticator`
repository: the two key-extraction strategies `ReadPEMFile` and
`ReadJWKFile`.  External effects (the file system, `cryptography`'s
`load_pem_private_key`, `json.load`, `jose.jwk.construct`) are modelled as
outcome values and function parameters; the control flow of the two
`signature` setters and getters is translated statement by statement.
-/

/-- `KeyValidationError` values, identified by the bracketed code of the
message the source attaches to them; `e004` keeps the interpolated
exception detail of `f"Unexpected: {e} [E004]"`. -/
inductive Err
  | e001
  | e002
  | e003
  | e004 (detail : String)
  | e005
  | e006
  | e007
deriving DecidableEq, Repr

/-- The message string the source builds for each `KeyValidationError`. -/
def Err.message : Err → String
  | .e001 => "PEM file not found in path. [E001]"
  | .e002 => "Bad PEM key file. [E002]"
  | .e003 => "Bad PEM key signature. [E003]"
  | .e004 d => "Unexpected: " ++ d ++ " [E004]"
  | .e005 => "JWK file not found in path. [E005]"
  | .e006 => "Bad JWK key file. [E006]"
  | .e007 => "Bad JWK key signature. [E007]"

/-- Python values as produced by `json.load`: JSON documents plus Python
`None` (`json.load` of the document `null` yields `None`, and the setter's
local `data` is initialised to `None`).  Objects keep their fields as an
association list with string keys, as JSON object keys are always strings. -/
inductive JVal
  | null
  | bool (b : Bool)
  | num (n : Int)
  | str (s : String)
  | arr (elems : List JVal)
  | obj (fields : List (String × JVal))

/-- `isinstance(v, dict)`. -/
def JVal.isDict : JVal → Bool
  | .obj _ => true
  | _ => false

/-- `isinstance(v, list)`. -/
def JVal.isList : JVal → Bool
  | .arr _ => true
  | _ => false

/-- `v.get(k)` on a parsed value: Python `dict.get` returns `None` when the
key is absent (only ever called on dicts in the source). -/
def JVal.get (v : JVal) (k : String) : JVal :=
  match v with
  | .obj fields => ((fields.lookup k).getD .null)
  | _ => .null

/-- `k in v` for a string key (only ever called on dicts in the source). -/
def JVal.hasKey (v : JVal) (k : String) : Bool :=
  match v with
  | .obj fields => (fields.lookup k).isSome
  | _ => false

/-- The instance state shared by `ReadPEMFile` and `ReadJWKFile`:
`self._signature` (the opaque key handle, `None` initially) and
`self._errors`.  `K` is the opaque type of key handles. -/
structure KeyState (K : Type) where
  signature : Option K
  errors : List Err
deriving DecidableEq, Repr

/-- `__init__` of either class: `self._signature = None; self._errors = []`. -/
def initState (K : Type) : KeyState K :=
  { signature := none, errors := [] }

/-- The `signature` property getter of either class: it returns
`(self._signature, tuple(self._errors))` and contains no assignment, so the
paired post-state is the pre-state unchanged. -/
def signatureGet (st : KeyState K) : (Option K × List Err) × KeyState K :=
  ((st.signature, st.errors), st)

/-- Outcome of the body `open(path, "rb"); load_pem_private_key(f.read(),
password=None)` of the PEM setter's `try`, classified by the `except`
clause that would catch the raised exception, in source order:
`FileNotFoundError` (raised by `open` exactly when the path does not
exist), `TypeError`, `ValueError` (how the parser rejects syntactically
invalid PEM bytes), and the final catch-all `except Exception` with the
rendered detail of the exception.  The clauses match disjoint exception
classes except the last, which catches whatever the earlier three do not,
so one constructor per clause is faithful to the first-match dispatch. -/
inductive PemOutcome (K : Type)
  | ok (key : K)
  | fileNotFound
  | typeError
  | valueError
  | exc (detail : String)

/-- The value of the local `data` after the PEM setter's `try` statement:
`None` unless the body succeeded. -/
def pemData : PemOutcome K → Option K
  | .ok key => some key
  | _ => none

/-- The single error the matching `except` clause of the PEM setter appends
(none when the body succeeded). -/
def pemReadErrs : PemOutcome K → List Err
  | .ok _ => []
  | .fileNotFound => [Err.e001]
  | .typeError => [Err.e002]
  | .valueError => [Err.e003]
  | .exc d => [Err.e004 d]

/-- The `ReadPEMFile.signature` setter: `data` starts as `None` and is
assigned the parsed key only when the `try` body succeeds; each `except`
clause appends exactly one error; the `finally` block runs on every path
and stores `data` into `self._signature` only when `self._errors` is empty
at that point. -/
def pemSet (o : PemOutcome K) (st : KeyState K) : KeyState K :=
  let data : Option K := pemData o
  let errors : List Err := st.errors ++ pemReadErrs o
  if errors.isEmpty then { signature := data, errors := errors }
  else { signature := st.signature, errors := errors }

/-- Outcome of the body `open(path, "r"); json.load(f)` of the JWK setter's
`try`, classified by the `except` clause that would catch the raised
exception, in source order: `FileNotFoundError`, `json.JSONDecodeError`,
and the catch-all `except Exception`. -/
inductive JsonOutcome
  | ok (v : JVal)
  | fileNotFound
  | jsonDecodeError
  | exc (detail : String)

/-- A Python exception escaping a setter uncaught. -/
inductive PyExc
  | keyError (key : Int)
deriving DecidableEq, Repr

/-- The value of the local `data` after the JWK setter's `try` statement:
the parsed value, or Python `None` when an `except` clause ran. -/
def jwkData : JsonOutcome → JVal
  | .ok v => v
  | _ => .null

/-- The single error the matching `except` clause of the JWK setter appends
(none when the body succeeded). -/
def jwkReadErrs : JsonOutcome → List Err
  | .ok _ => []
  | .fileNotFound => [Err.e005]
  | .jsonDecodeError => [Err.e006]
  | .exc d => [Err.e004 d]

/-- The tail of the JWK setter, from `if isinstance(data.get("keys"), list)`
on, given the current `data` (a dict by this point) and the accumulated
`self._errors`.  When `data.get("keys")` is a list the source evaluates
`data[0]` (inside `data[0] if isinstance(data[0], dict) else {}`, whose
condition is evaluated first): an integer subscript on the string-keyed
dict `data`, and since `0` equals no string key this raises `KeyError: 0`,
which no handler catches, so it escapes with the state as mutated so far.
Otherwise, when all five required members are present and `self._errors` is
empty, `jwk.construct(data)` is stored into `self._signature`, a raised
`JOSEError` being recorded as E007 instead. -/
def jwkKeysPhase (construct : JVal → Option K) (st : KeyState K)
    (data : JVal) (errors : List Err) : KeyState K × Option PyExc :=
  if (data.get "keys").isList then
    ({ signature := st.signature, errors := errors }, some (PyExc.keyError 0))
  else if (["kty", "kid", "n", "e", "d"].all data.hasKey) && errors.isEmpty then
    match construct data with
    | some k => ({ signature := some k, errors := errors }, none)
    | none => ({ signature := st.signature, errors := errors ++ [Err.e007] }, none)
  else
    ({ signature := st.signature, errors := errors }, none)

/-- The `ReadJWKFile.signature` setter.  `construct` models
`jose.jwk.construct` (`none` meaning it raises `JOSEError`).  The result is
the updated instance state together with the exception escaping the call,
if any.  After the `try` statement `data` holds `jwkData o` and the
matching `except` clause has appended `jwkReadErrs o`; a non-dict `data` is
then replaced by `{}` with an E007 error appended, and `jwkKeysPhase`
carries out the rest of the method body. -/
def jwkSet (construct : JVal → Option K) (o : JsonOutcome) (st : KeyState K) :
    KeyState K × Option PyExc :=
  let data : JVal := jwkData o
  let errors : List Err := st.errors ++ jwkReadErrs o
  if data.isDict then jwkKeysPhase construct st data errors
  else jwkKeysPhase construct st (JVal.obj []) (errors ++ [Err.e007])

/-- Every PEM setter call leaves the prior errors as a prefix of the new
error list: errors are only ever appended. -/
theorem pemSet_errors_append (o : PemOutcome K) (st : KeyState K) :
    ∃ new, (pemSet o st).errors = st.errors ++ new := by
  unfold pemSet
  dsimp only
  split
  · exact ⟨_, rfl⟩
  · exact ⟨_, rfl⟩

/-- After a PEM setter call, either the stored handle is unchanged or the
error list ended empty (the `finally` guard). -/
theorem pemSet_signature_cases (o : PemOutcome K) (st : KeyState K) :
    (pemSet o st).signature = st.signature ∨ (pemSet o st).errors.isEmpty = true := by
  unfold pemSet
  dsimp only
  split
  · next h => exact Or.inr h
  · exact Or.inl rfl

/-- The keys phase leaves the errors it is given as a prefix of the error
list it returns. -/
theorem jwkKeysPhase_errors_append (construct : JVal → Option K) (st : KeyState K)
    (data : JVal) (errors : List Err) :
    ∃ new, ((jwkKeysPhase construct st data errors).1).errors = errors ++ new := by
  unfold jwkKeysPhase
  repeat' split
  all_goals first
    | exact ⟨[], (List.append_nil _).symm⟩
    | exact ⟨_, rfl⟩

/-- After the keys phase, either the stored handle is unchanged or the error
list ended empty (the `not self._errors` half of the gate). -/
theorem jwkKeysPhase_signature_cases (construct : JVal → Option K) (st : KeyState K)
    (data : JVal) (errors : List Err) :
    ((jwkKeysPhase construct st data errors).1).signature = st.signature
      ∨ ((jwkKeysPhase construct st data errors).1).errors.isEmpty = true := by
  unfold jwkKeysPhase
  repeat' split
  all_goals first
    | exact Or.inl rfl
    | simp_all

/-- Every JWK setter call, raising or not, leaves the prior errors as a
prefix of the new error list. -/
theorem jwkSet_errors_append (construct : JVal → Option K) (o : JsonOutcome)
    (st : KeyState K) :
    ∃ new, ((jwkSet construct o st).1).errors = st.errors ++ new := by
  unfold jwkSet
  dsimp only
  split
  · obtain ⟨n, hn⟩ :=
      jwkKeysPhase_errors_append construct st (jwkData o) (st.errors ++ jwkReadErrs o)
    exact ⟨jwkReadErrs o ++ n, by rw [hn, List.append_assoc]⟩
  · obtain ⟨n, hn⟩ :=
      jwkKeysPhase_errors_append construct st (JVal.obj [])
        ((st.errors ++ jwkReadErrs o) ++ [Err.e007])
    refine ⟨(jwkReadErrs o ++ [Err.e007]) ++ n, ?_⟩
    rw [hn]
    simp [List.append_assoc]

/-- After a JWK setter call, either the stored handle is unchanged or the
error list ended empty. -/
theorem jwkSet_signature_cases (construct : JVal → Option K) (o : JsonOutcome)
    (st : KeyState K) :
    ((jwkSet construct o st).1).signature = st.signature
      ∨ ((jwkSet construct o st).1).errors.isEmpty = true := by
  unfold jwkSet
  dsimp only
  split
  · exact jwkKeysPhase_signature_cases construct st (jwkData o) (st.errors ++ jwkReadErrs o)
  · exact jwkKeysPhase_signature_cases construct st (JVal.obj [])
      ((st.errors ++ jwkReadErrs o) ++ [Err.e007])

/-- Claim C1: the spec requires that invoking the extraction trigger (the
signature setter) never propagates an exception for any path, in particular
for a JWK file whose top-level JSON object has a list-valued `keys` member;
the code violates this intent: on such a file `data[0]` is an integer
subscript on the string-keyed top-level dict and raises `KeyError: 0`.
This theorem evaluates the embedded setter at the failing input: a fresh
JWK extractor reading the document with a `keys` member that is an (empty)
list escapes with `KeyError: 0` instead of returning normally. -/
theorem c1_jwk_keys_list_raises :
    jwkSet (fun _ => some (0 : Nat)) (.ok (.obj [("keys", .arr [])])) (initState Nat)
      = (initState Nat, some (PyExc.keyError 0)) := rfl

/-- Claim C2: the spec requires that a JWK-set document whose first key
object carries all of `kty`, `kid`, `n`, `e`, `d` yields a present key
handle and an empty error list; the code instead raises `KeyError: 0` from
`data[0]` before ever reaching the first key, so no handle is stored.  This
theorem evaluates the embedded setter at such a document: the call escapes
with `KeyError: 0` and the fresh state is unchanged. -/
theorem c2_jwkset_call_raises :
    jwkSet (fun _ => some (0 : Nat))
      (.ok (.obj [("keys", .arr [.obj [("kty", .str "RSA"), ("kid", .str "1"),
        ("n", .str "nval"), ("e", .str "AQAB"), ("d", .str "dval")]])]))
      (initState Nat) = (initState Nat, some (PyExc.keyError 0)) := rfl

/-- Claim C3 is false as stated for the JWK extractor: on a nonexistent path
a fresh JWK call records two errors, E005 and then E007, not exactly one
error E005. -/
theorem c3_counterexample :
    (jwkSet (fun _ => some (0 : Nat)) .fileNotFound (initState Nat)).1.errors.length ≠ 1
    ∧ (jwkSet (fun _ => some (0 : Nat)) .fileNotFound (initState Nat)).1.errors
        = [Err.e005, Err.e007] := by
  exact ⟨by decide, rfl⟩

/-- Claim C3 (amended): for a path that does not exist, a single extraction
call on a fresh instance yields no key handle; the PEM extractor records
exactly one error, E001, while the JWK extractor records exactly two, E005
followed by E007 (its non-mapping check fires on the unset `data` as well),
both returning without raising. -/
theorem c3_amended (K : Type) (construct : JVal → Option K) :
    pemSet .fileNotFound (initState K) = { signature := none, errors := [Err.e001] }
    ∧ jwkSet construct .fileNotFound (initState K)
        = ({ signature := none, errors := [Err.e005, Err.e007] }, none) :=
  ⟨rfl, rfl⟩

/-- Claim C4 is false as stated, in both directions: after one JWK setter
call on a fresh instance reading the document with no members, the error
list is empty yet the key handle is absent; and after a successful PEM call
followed by a failing one on the same instance, the error list is non-empty
yet the key handle is still present. -/
theorem c4_counterexample :
    ((jwkSet (fun _ => some (0 : Nat)) (.ok (.obj [])) (initState Nat)).1.errors = []
      ∧ (jwkSet (fun _ => some (0 : Nat)) (.ok (.obj [])) (initState Nat)).1.signature = none)
    ∧ ((pemSet .fileNotFound (pemSet (.ok (7 : Nat)) (initState Nat))).errors = [Err.e001]
      ∧ (pemSet .fileNotFound (pemSet (.ok (7 : Nat)) (initState Nat))).signature = some 7) :=
  ⟨⟨rfl, rfl⟩, ⟨rfl, rfl⟩⟩

/-- Claim C4 (amended): after a single setter invocation on a fresh PEM or
JWK instance, a non-empty error list implies the key handle is absent.  The
remaining directions of the original claim fail: an empty error list does
not imply a present handle (the JWK silent skip), and over repeated
invocations a previously stored handle survives later errors. -/
theorem c4_single_call_errors_no_key (K : Type) (construct : JVal → Option K)
    (po : PemOutcome K) (jo : JsonOutcome) :
    ((pemSet po (initState K)).errors ≠ [] → (pemSet po (initState K)).signature = none)
    ∧ (((jwkSet construct jo (initState K)).1).errors ≠ [] →
        ((jwkSet construct jo (initState K)).1).signature = none) := by
  constructor
  · intro h
    rcases pemSet_signature_cases po (initState K) with hs | he
    · exact hs
    · rw [List.isEmpty_iff] at he
      exact absurd he h
  · intro h
    rcases jwkSet_signature_cases construct jo (initState K) with hs | he
    · exact hs
    · rw [List.isEmpty_iff] at he
      exact absurd he h

/-- Witness for the amended Claim C4 at concrete inputs: an invalid-PEM call
and a JSON-decode-failure call on fresh instances leave non-empty error
lists, and the theorem yields an absent handle in both cases. -/
theorem c4_witness :
    (pemSet PemOutcome.valueError (initState Nat)).signature = none
    ∧ ((jwkSet (fun _ => some (0 : Nat)) .jsonDecodeError (initState Nat)).1).signature
        = none := by
  constructor
  · exact (c4_single_call_errors_no_key Nat (fun _ => some 0) PemOutcome.valueError
      .jsonDecodeError).1 (by decide)
  · exact (c4_single_call_errors_no_key Nat (fun _ => some 0) PemOutcome.valueError
      .jsonDecodeError).2 (by decide)

/-- Claim C5 is false as stated: on a file containing the JSON object with
the single member `foo`, a fresh JWK call records no error at all — the
value is a mapping, so the E007 check does not fire, and the missing
required fields cause a silent skip — rather than exactly one E007 error. -/
theorem c5_counterexample :
    (jwkSet (fun _ => some (0 : Nat)) (.ok (.obj [("foo", .str "bar")]))
        (initState Nat)).1.errors = []
    ∧ (jwkSet (fun _ => some (0 : Nat)) (.ok (.obj [("foo", .str "bar")]))
        (initState Nat)).1.errors ≠ [Err.e007] :=
  ⟨rfl, by decide⟩

/-- Claim C5 (amended): on a file containing the JSON object with the single
member `foo`, a fresh JWK call yields no key handle and an empty error list
(the silent skip), returning normally. -/
theorem c5_amended :
    jwkSet (fun _ => some (0 : Nat)) (.ok (.obj [("foo", .str "bar")])) (initState Nat)
      = (initState Nat, none) := rfl

/-- Claim C6: for a file containing a JSON object with no list-valued `keys`
member that is missing at least one of `kty`, `kid`, `n`, `e`, `d`, a single
JWK call on a fresh instance returns normally with no key handle and an
empty error list — the documented silent skip. -/
theorem c6_missing_field_silent_skip (K : Type) (construct : JVal → Option K)
    (fields : List (String × JVal))
    (hkeys : ((JVal.obj fields).get "keys").isList = false)
    (hmiss : (["kty", "kid", "n", "e", "d"].all (JVal.obj fields).hasKey) = false) :
    jwkSet construct (.ok (.obj fields)) (initState K) = (initState K, none) := by
  simp only [jwkSet, jwkData, jwkReadErrs, JVal.isDict]
  simp [jwkKeysPhase, hkeys, hmiss, initState]

/-- Witness for Claim C6 at a concrete input: a JSON object with only `kty`
has no `keys` list and is missing required fields, and the call yields the
untouched fresh state. -/
theorem c6_witness :
    (((JVal.obj [("kty", JVal.str "RSA")]).get "keys").isList = false)
    ∧ ((["kty", "kid", "n", "e", "d"].all (JVal.obj [("kty", JVal.str "RSA")]).hasKey)
        = false)
    ∧ jwkSet (fun _ => some (0 : Nat)) (.ok (.obj [("kty", JVal.str "RSA")]))
        (initState Nat) = (initState Nat, none) :=
  ⟨rfl, rfl, c6_missing_field_silent_skip Nat (fun _ => some 0)
    [("kty", JVal.str "RSA")] rfl rfl⟩

/-- Claim C7: a single fresh-instance PEM call maps each failure kind of the
try body to exactly one appended error, first matching except clause
winning — file not found to E001, a parser TypeError to E002, invalid
PEM/key bytes (ValueError) to E003, and any other exception to E004 with
the underlying detail embedded in the message — leaving no key handle,
while a successful parse stores the handle with no error. -/
theorem c7_pem_error_mapping (K : Type) (m : String) (k : K) :
    pemSet .fileNotFound (initState K) = { signature := none, errors := [Err.e001] }
    ∧ pemSet .typeError (initState K) = { signature := none, errors := [Err.e002] }
    ∧ pemSet .valueError (initState K) = { signature := none, errors := [Err.e003] }
    ∧ pemSet (.exc m) (initState K) = { signature := none, errors := [Err.e004 m] }
    ∧ (Err.e004 m).message = "Unexpected: " ++ m ++ " [E004]"
    ∧ pemSet (.ok k) (initState K) = { signature := some k, errors := [] } :=
  ⟨rfl, rfl, rfl, rfl, rfl, rfl⟩

/-- Claim C8: repeated setter invocations on one instance append each call's
errors without resetting — the prior error list is always a prefix of the
new one — and a non-empty prior error list suppresses storing a handle from
a later successful call: the stored handle is left unchanged (for PEM by
the `finally` guard, for JWK by the `not self._errors` half of the gate). -/
theorem c8_error_accumulation (K : Type) (st jst : KeyState K) (o : PemOutcome K)
    (construct : JVal → Option K) (jo : JsonOutcome) :
    (∃ new, (pemSet o st).errors = st.errors ++ new)
    ∧ (st.errors ≠ [] → (pemSet o st).signature = st.signature)
    ∧ (∃ new, ((jwkSet construct jo jst).1).errors = jst.errors ++ new)
    ∧ (jst.errors ≠ [] → ((jwkSet construct jo jst).1).signature = jst.signature) := by
  refine ⟨pemSet_errors_append o st, ?_, jwkSet_errors_append construct jo jst, ?_⟩
  · intro h
    rcases pemSet_signature_cases o st with hs | he
    · exact hs
    · obtain ⟨new, hn⟩ := pemSet_errors_append o st
      rw [hn] at he
      simp at he
      exact absurd he.1 h
  · intro h
    rcases jwkSet_signature_cases construct jo jst with hs | he
    · exact hs
    · obtain ⟨new, hn⟩ := jwkSet_errors_append construct jo jst
      rw [hn] at he
      simp at he
      exact absurd he.1 h

/-- Witness for Claim C8 at concrete inputs: an instance carrying one prior
E003 error keeps an absent handle through a later successful PEM parse, and
likewise through a later JWK call whose document carries all required
fields and whose construction succeeds. -/
theorem c8_witness :
    (pemSet (.ok (5 : Nat)) ⟨none, [Err.e003]⟩).signature = none
    ∧ ((jwkSet (fun _ => some (1 : Nat))
        (.ok (.obj [("kty", JVal.str "RSA"), ("kid", JVal.str "a"), ("n", JVal.str "b"),
          ("e", JVal.str "c"), ("d", JVal.str "dd")]))
        ⟨none, [Err.e003]⟩).1).signature = none := by
  constructor
  · exact (c8_error_accumulation Nat ⟨none, [Err.e003]⟩ ⟨none, [Err.e003]⟩ (.ok 5)
      (fun _ => some 1)
      (.ok (.obj [("kty", JVal.str "RSA"), ("kid", JVal.str "a"), ("n", JVal.str "b"),
        ("e", JVal.str "c"), ("d", JVal.str "dd")]))).2.1 (by decide)
  · exact (c8_error_accumulation Nat ⟨none, [Err.e003]⟩ ⟨none, [Err.e003]⟩ (.ok 5)
      (fun _ => some 1)
      (.ok (.obj [("kty", JVal.str "RSA"), ("kid", JVal.str "a"), ("n", JVal.str "b"),
        ("e", JVal.str "c"), ("d", JVal.str "dd")]))).2.2.2 (by decide)

/-- Claim C9: any JWK call whose read/parse phase fails appends exactly two
errors in that call — the phase error (E005 for an open failure, E006 for a
JSON decode failure, E004 for any other read/parse exception) immediately
followed by E007, because `data` is left as `None`, which is not a
mapping — leaves the stored handle unchanged, and returns normally. -/
theorem c9_jwk_read_failure_two_errors (K : Type) (construct : JVal → Option K)
    (st : KeyState K) (m : String) :
    jwkSet construct .fileNotFound st
        = ({ signature := st.signature, errors := st.errors ++ [Err.e005, Err.e007] }, none)
    ∧ jwkSet construct .jsonDecodeError st
        = ({ signature := st.signature, errors := st.errors ++ [Err.e006, Err.e007] }, none)
    ∧ jwkSet construct (.exc m) st
        = ({ signature := st.signature, errors := st.errors ++ [Err.e004 m, Err.e007] }, none) := by
  refine ⟨?_, ?_, ?_⟩ <;>
    simp [jwkSet, jwkData, jwkReadErrs, JVal.isDict, jwkKeysPhase, JVal.get,
      JVal.isList, JVal.hasKey, List.append_assoc]

/-- Claim C10: the signature getter is a pure read — it leaves the instance
state unchanged, and reading it twice without an intervening setter call
returns identical values; the getter of both extractor classes is the same
code over the shared state shape. -/
theorem c10_getter_idempotent (K : Type) (st : KeyState K) :
    (signatureGet st).2 = st
    ∧ (signatureGet ((signatureGet st).2)).1 = (signatureGet st).1 :=
  ⟨rfl, rfl⟩
